import Mathlib

/-!
Verification of the Descriptor Normalizer of the function-calling
documentation notebook: conversion of heterogeneous callable / schema-object /
tool-wrapper sources into normalized tool descriptors and their JSON
serializations (modern `tools` shape and legacy `functions` shape).

The converter itself (`convert_to_openai_tool` / `convert_to_openai_function`
in `langchain_core.utils.function_calling`) is repository code that is not
present under the notebook sources; its behaviour is modelled from the spec.
The notebook's recorded output cells are present and are transcribed below as
concrete JSON constants.
-/

namespace FnCall

/-- JSON values. Objects keep their fields as an ordered association list,
so that two objects with the same bindings in different orders are distinct
values (byte-order differences in the notebook outputs are observable). -/
inductive Json where
  | str : String → Json
  | num : Int → Json
  | bool : Bool → Json
  | arr : List Json → Json
  | obj : List (String × Json) → Json

/-- Field lookup in a JSON object (first binding wins); `none` on non-objects. -/
def getField : Json → String → Option Json
  | Json.obj fs, k => (fs.find? (fun p => p.1 = k)).map Prod.snd
  | _, _ => none

/-- The keys of a JSON object, in order; `[]` on non-objects. -/
def objKeys : Json → List String
  | Json.obj fs => fs.map Prod.fst
  | _ => []

/-- Boolean lexicographic order on lists of naturals. -/
def natListLe : List Nat → List Nat → Bool
  | [], _ => true
  | _ :: _, [] => false
  | a :: as, b :: bs => if a < b then true else if b < a then false else natListLe as bs

/-- Lexicographic order on keys, by character code. -/
def keyLe (a b : String) : Bool :=
  natListLe (a.data.map Char.toNat) (b.data.map Char.toNat)

/-- Insert a field into a key-sorted field list, keeping it sorted. -/
def keyInsert (p : String × Json) : List (String × Json) → List (String × Json)
  | [] => [p]
  | q :: qs => if keyLe p.1 q.1 then p :: q :: qs else q :: keyInsert p qs

/-- Sort a field list by key (insertion sort). -/
def keySort : List (String × Json) → List (String × Json)
  | [] => []
  | p :: ps => keyInsert p (keySort ps)

/-- Canonicalize a JSON value by sorting object keys, recursing to depth `n`.
For values of nesting depth at most `n` this is a full canonical form, so two
values are equal as unordered JSON data iff their canonicalizations agree. -/
def canonJson : Nat → Json → Json
  | 0, j => j
  | n + 1, Json.obj fs => Json.obj (keySort (fs.map (fun p => (p.1, canonJson n p.2))))
  | n + 1, Json.arr xs => Json.arr (xs.map (canonJson n))
  | _ + 1, j => j

/-! ### Data model (spec §3)

The converter implementation lives in `langchain_core.utils.function_calling`,
which is not among the notebook sources; the definitions in this section are
modelled from the spec (§3, §4.1). -/

/-- Modelled from the spec: the fixed set of JSON Schema primitive/composite
types a parameter may be mapped to. -/
inductive JsonType where
  | integer | number | string | boolean | array | object
deriving DecidableEq

/-- The wire name of a JSON Schema type. -/
def JsonType.toStr : JsonType → String
  | .integer => "integer"
  | .number => "number"
  | .string => "string"
  | .boolean => "boolean"
  | .array => "array"
  | .object => "object"

/-- Modelled from the spec: a normalized parameter: name, mapped JSON Schema
type, optional documentation text, and whether it is required (true unless the
source marks it optional or gives it a default value). -/
structure ParameterSpec where
  name : String
  type : JsonType
  descr : Option String
  required : Bool
deriving DecidableEq

/-- Modelled from the spec: a normalized tool descriptor; `parameters` is an
ordered list whose order is source-declaration order. -/
structure ToolDescriptor where
  name : String
  descr : String
  parameters : List ParameterSpec
deriving DecidableEq

/-! ### Source representations (spec §4.1, three input variants) -/

/-- Modelled from the spec: a declared source-language type of a parameter or
field. The first six map to JSON Schema primitives; `custom` stands for an
unrecognized type with no nested schema, which has no mapping. -/
inductive SourceType where
  | int | float | text | boolean | seq | mapping | custom (n : String)
deriving DecidableEq

/-- Modelled from the spec: the type-mapping rule (integer→"integer",
floating-point→"number", text→"string", boolean→"boolean", sequence→"array",
mapping→"object"); `none` when the declared type has no primitive mapping. -/
def mapType : SourceType → Option JsonType
  | .int => some .integer
  | .float => some .number
  | .text => some .string
  | .boolean => some .boolean
  | .seq => some .array
  | .mapping => some .object
  | .custom _ => none

/-- Modelled from the spec: one declared parameter of a callable source:
its name, declared type, and whether it has a default value. -/
structure CallableParam where
  name : String
  type : SourceType
  hasDefault : Bool
deriving DecidableEq

/-- Modelled from the spec: the callable variant — a named routine with a
parameter list and a documentation block carrying a summary line and a
per-parameter description list keyed by parameter name. -/
structure CallableSource where
  name : String
  docSummary : String
  paramDocs : List (String × String)
  params : List CallableParam
deriving DecidableEq

/-- Modelled from the spec: one named, typed field of a schema-object class,
optionally carrying its own description and default. -/
structure SchemaField where
  name : String
  type : SourceType
  descr : Option String
  hasDefault : Bool
deriving DecidableEq

/-- Modelled from the spec: the schema-object variant — a class-like
declaration of named, typed fields, with class identifier and class-level
documentation text. -/
structure SchemaObjectSource where
  name : String
  docText : String
  fields : List SchemaField
deriving DecidableEq

/-- Modelled from the spec: the tool-wrapper variant — an instance carrying an
explicit `name`, explicit description, and a reference to a schema-object
class describing its invocation arguments. -/
structure ToolWrapperSource where
  name : String
  descr : String
  argsSchema : SchemaObjectSource
deriving DecidableEq

/-- Modelled from the spec: the tagged union of the three source variants. -/
inductive Source where
  | callable : CallableSource → Source
  | schemaObject : SchemaObjectSource → Source
  | toolWrapper : ToolWrapperSource → Source
deriving DecidableEq

/-- Modelled from the spec: normalization failures (spec §7); the only kind
raised by the normalizer is `SchemaMappingError`, carrying the offending
parameter's name. -/
inductive NormalizeError where
  | schemaMappingError (paramName : String)
deriving DecidableEq

/-! ### The normalizer (spec §4.1, operation `normalize`) -/

/-- Modelled from the spec: normalize one callable parameter — map its
declared type (failing with `SchemaMappingError` when unmappable), attach the
matching per-parameter documentation line, required unless it has a default. -/
def normalizeParam (docs : List (String × String)) (p : CallableParam) :
    Except NormalizeError ParameterSpec :=
  match mapType p.type with
  | none => .error (.schemaMappingError p.name)
  | some t =>
      .ok { name := p.name, type := t,
            descr := (docs.find? (fun d => d.1 = p.name)).map Prod.snd,
            required := !p.hasDefault }

/-- Modelled from the spec: normalize a parameter list in declaration order;
the first mapping failure aborts the whole normalization (synchronous and
local, no partial results). -/
def normalizeParams (docs : List (String × String)) :
    List CallableParam → Except NormalizeError (List ParameterSpec)
  | [] => .ok []
  | p :: ps =>
    match normalizeParam docs p with
    | .error e => .error e
    | .ok s =>
      match normalizeParams docs ps with
      | .error e => .error e
      | .ok rest => .ok (s :: rest)

/-- Modelled from the spec: the callable variant of `normalize` — the
routine's identifier becomes `name`, the documentation summary becomes the
description, and each declared parameter is normalized in declaration order. -/
def normalizeCallable (s : CallableSource) : Except NormalizeError ToolDescriptor :=
  match normalizeParams s.paramDocs s.params with
  | .error e => .error e
  | .ok ps => .ok { name := s.name, descr := s.docSummary, parameters := ps }

/-- Modelled from the spec: normalize one schema-object field — the same
type-mapping rule, field-level description taken verbatim, required iff no
default is declared. -/
def normalizeField (f : SchemaField) : Except NormalizeError ParameterSpec :=
  match mapType f.type with
  | none => .error (.schemaMappingError f.name)
  | some t => .ok { name := f.name, type := t, descr := f.descr, required := !f.hasDefault }

/-- Modelled from the spec: normalize a field list in declaration order; the
first mapping failure aborts the whole normalization. -/
def normalizeFields : List SchemaField → Except NormalizeError (List ParameterSpec)
  | [] => .ok []
  | f :: fs =>
    match normalizeField f with
    | .error e => .error e
    | .ok s =>
      match normalizeFields fs with
      | .error e => .error e
      | .ok rest => .ok (s :: rest)

/-- Modelled from the spec: the schema-object variant of `normalize` — the
class identifier becomes `name`, the class-level documentation text the
description, and each field becomes a `ParameterSpec` in declaration order. -/
def normalizeSchemaObject (s : SchemaObjectSource) : Except NormalizeError ToolDescriptor :=
  match normalizeFields s.fields with
  | .error e => .error e
  | .ok ps => .ok { name := s.name, descr := s.docText, parameters := ps }

/-- Modelled from the spec: the tool-wrapper variant of `normalize` — the
explicit name and description are used verbatim, and parameter extraction is
delegated to the schema-object variant applied to the referenced class. -/
def normalizeToolWrapper (t : ToolWrapperSource) : Except NormalizeError ToolDescriptor :=
  match normalizeSchemaObject t.argsSchema with
  | .error e => .error e
  | .ok inner => .ok { name := t.name, descr := t.descr, parameters := inner.parameters }

/-- Modelled from the spec: `normalize(source) -> ToolDescriptor`, polymorphic
over the three input variants, dispatched by source kind. -/
def normalize : Source → Except NormalizeError ToolDescriptor
  | .callable s => normalizeCallable s
  | .schemaObject s => normalizeSchemaObject s
  | .toolWrapper t => normalizeToolWrapper t

/-! ### Serialization (spec §4.1, operation `serialize` and `toJSONSchema`) -/

/-- Modelled from the spec: the JSON Schema of a single parameter — its mapped
type, plus its documentation text when present. -/
def paramSchema (p : ParameterSpec) : Json :=
  Json.obj ([("type", Json.str p.type.toStr)] ++
    (match p.descr with
     | some d => [("description", Json.str d)]
     | none => []))

/-- Modelled from the spec: `toJSONSchema` always emits
`{type: "object", properties: {...}, required: [...]}`; `properties` preserves
declaration order, and `required` lists the required parameter names in
declaration order. -/
def toJSONSchema (ps : List ParameterSpec) : Json :=
  Json.obj
    [("type", Json.str "object"),
     ("properties", Json.obj (ps.map (fun p => (p.name, paramSchema p)))),
     ("required", Json.arr ((ps.filter (fun p => p.required)).map (fun p => Json.str p.name)))]

/-- Modelled from the spec: `serialize(descriptor, legacy)` — when `legacy` is
false, wraps as `{type: "function", function: {name, description, parameters}}`;
when `legacy` is true, emits the flat `{name, description, parameters}`. -/
def serialize (d : ToolDescriptor) (legacy : Bool) : Json :=
  let flat := Json.obj
    [("name", Json.str d.name),
     ("description", Json.str d.descr),
     ("parameters", toJSONSchema d.parameters)]
  if legacy then flat
  else Json.obj [("type", Json.str "function"), ("function", flat)]

/-- Modelled from the spec: a serialization call observed together with the
descriptor it leaves behind — the call is a pure, stateless transform, so it
returns the output and passes the descriptor through unchanged. -/
def serializeWith (d : ToolDescriptor) (legacy : Bool) : Json × ToolDescriptor :=
  (serialize d legacy, d)

/-! ### The notebook's concrete sources

Transcribed from the notebook cells of
`docs/docs/modules/model_io/chat/function_calling.ipynb`. -/

/-- The Python function `multiply(a: int, b: int) -> int` with docstring
summary "Multiply two integers together." and Args entries
`a: First integer`, `b: Second integer` (notebook "Python function" cell). -/
def multiplyCallable : CallableSource :=
  { name := "multiply",
    docSummary := "Multiply two integers together.",
    paramDocs := [("a", "First integer"), ("b", "Second integer")],
    params :=
      [{ name := "a", type := SourceType.int, hasDefault := false },
       { name := "b", type := SourceType.int, hasDefault := false }] }

/-- The Pydantic class `multiply(BaseModel)` with docstring
"Multiply two integers together." and fields
`a: int = Field(..., description="First integer")`,
`b: int = Field(..., description="Second integer")` — `Field(...)` declares no
default, so both fields are required (notebook "Pydantic class" cell). -/
def multiplyPydantic : SchemaObjectSource :=
  { name := "multiply",
    docText := "Multiply two integers together.",
    fields :=
      [{ name := "a", type := SourceType.int, descr := some "First integer", hasDefault := false },
       { name := "b", type := SourceType.int, descr := some "Second integer", hasDefault := false }] }

/-- The Pydantic class `MultiplySchema(BaseModel)` with docstring
"Multiply tool schema." and the same two fields (notebook "LangChain Tool"
cell). -/
def multiplySchema : SchemaObjectSource :=
  { name := "MultiplySchema",
    docText := "Multiply tool schema.",
    fields :=
      [{ name := "a", type := SourceType.int, descr := some "First integer", hasDefault := false },
       { name := "b", type := SourceType.int, descr := some "Second integer", hasDefault := false }] }

/-- The `Multiply(BaseTool)` instance with `args_schema = MultiplySchema`,
`name = "multiply"`, `description = "Multiply two integers together."`
(notebook "LangChain Tool" cell). -/
def multiplyTool : ToolWrapperSource :=
  { name := "multiply",
    descr := "Multiply two integers together.",
    argsSchema := multiplySchema }

/-! ### The notebook's recorded outputs

Each constant transcribes, key order included, one output cell of the
notebook: the printed value of `convert_to_openai_tool` (modern shape) for
each of the three source variants, and of `convert_to_openai_function`
(legacy shape). -/

/-- Recorded output of `convert_to_openai_tool(multiply)` for the Python
function variant. Each per-parameter schema lists `type` before
`description`. -/
def functionVariantOutput : Json :=
  Json.obj
    [("type", Json.str "function"),
     ("function", Json.obj
       [("name", Json.str "multiply"),
        ("description", Json.str "Multiply two integers together."),
        ("parameters", Json.obj
          [("type", Json.str "object"),
           ("properties", Json.obj
             [("a", Json.obj
                [("type", Json.str "integer"),
                 ("description", Json.str "First integer")]),
              ("b", Json.obj
                [("type", Json.str "integer"),
                 ("description", Json.str "Second integer")])]),
           ("required", Json.arr [Json.str "a", Json.str "b"])])])]

/-- Recorded output of `convert_to_openai_tool(multiply)` for the Pydantic
class variant. Each per-parameter schema lists `description` before `type`. -/
def pydanticVariantOutput : Json :=
  Json.obj
    [("type", Json.str "function"),
     ("function", Json.obj
       [("name", Json.str "multiply"),
        ("description", Json.str "Multiply two integers together."),
        ("parameters", Json.obj
          [("type", Json.str "object"),
           ("properties", Json.obj
             [("a", Json.obj
                [("description", Json.str "First integer"),
                 ("type", Json.str "integer")]),
              ("b", Json.obj
                [("description", Json.str "Second integer"),
                 ("type", Json.str "integer")])]),
           ("required", Json.arr [Json.str "a", Json.str "b"])])])]

/-- Recorded output of `convert_to_openai_tool(Multiply())` for the LangChain
Tool variant. Each per-parameter schema lists `description` before `type`. -/
def toolVariantOutput : Json :=
  Json.obj
    [("type", Json.str "function"),
     ("function", Json.obj
       [("name", Json.str "multiply"),
        ("description", Json.str "Multiply two integers together."),
        ("parameters", Json.obj
          [("type", Json.str "object"),
           ("properties", Json.obj
             [("a", Json.obj
                [("description", Json.str "First integer"),
                 ("type", Json.str "integer")]),
              ("b", Json.obj
                [("description", Json.str "Second integer"),
                 ("type", Json.str "integer")])]),
           ("required", Json.arr [Json.str "a", Json.str "b"])])])]

/-- Recorded output of `convert_to_openai_function(multiply)` (the legacy flat
shape; `multiply` is the Pydantic class at that point in the notebook). -/
def legacyFunctionOutput : Json :=
  Json.obj
    [("name", Json.str "multiply"),
     ("description", Json.str "Multiply two integers together."),
     ("parameters", Json.obj
       [("type", Json.str "object"),
        ("properties", Json.obj
          [("a", Json.obj
             [("description", Json.str "First integer"),
              ("type", Json.str "integer")]),
           ("b", Json.obj
             [("description", Json.str "Second integer"),
              ("type", Json.str "integer")])]),
        ("required", Json.arr [Json.str "a", Json.str "b"])])]

/-! ### Observers used to compare outputs -/

/-- Follow a path of object keys through a JSON value. -/
def getPath (j : Json) : List String → Option Json
  | [] => some j
  | k :: ks => match getField j k with
    | some v => getPath v ks
    | none => none

/-- The keys, in order, of the object reached by a path. -/
def keysAt (j : Json) (path : List String) : Option (List String) :=
  (getPath j path).map objKeys

/-- The parameter names listed in `function.parameters.required` of a
modern-shape output, as strings. -/
def requiredNamesOf (j : Json) : List String :=
  match getPath j ["function", "parameters", "required"] with
  | some (Json.arr xs) => xs.filterMap (fun v => match v with
      | Json.str s => some s
      | _ => none)
  | _ => []

/-- The declared parameters of a source, in declaration order, as
(name, has-a-default) pairs. -/
def sourceParams : Source → List (String × Bool)
  | .callable s => s.params.map (fun p => (p.name, p.hasDefault))
  | .schemaObject s => s.fields.map (fun f => (f.name, f.hasDefault))
  | .toolWrapper t => t.argsSchema.fields.map (fun f => (f.name, f.hasDefault))

/-- The declared types of a source's parameters, in declaration order. -/
def sourceTypes : Source → List SourceType
  | .callable s => s.params.map (fun p => p.type)
  | .schemaObject s => s.fields.map (fun f => f.type)
  | .toolWrapper t => t.argsSchema.fields.map (fun f => f.type)

/-! ### Lemmas about the normalizer -/

theorem normalizeParams_ok (docs : List (String × String)) :
    ∀ (xs : List CallableParam) (ys : List ParameterSpec),
      normalizeParams docs xs = .ok ys →
      ys.map (fun p => (p.name, p.required)) = xs.map (fun q => (q.name, !q.hasDefault))
  | [], ys, h => by
      simp only [normalizeParams, Except.ok.injEq] at h
      subst h; rfl
  | x :: xs, ys, h => by
      unfold normalizeParams at h
      cases hm : normalizeParam docs x with
      | error e => rw [hm] at h; exact absurd h (by simp)
      | ok s =>
        rw [hm] at h
        cases hr : normalizeParams docs xs with
        | error e => rw [hr] at h; exact absurd h (by simp)
        | ok rest =>
          rw [hr] at h
          simp only [Except.ok.injEq] at h
          subst h
          have hrec := normalizeParams_ok docs xs rest hr
          unfold normalizeParam at hm
          cases hmt : mapType x.type with
          | none => rw [hmt] at hm; exact absurd hm (by simp)
          | some t =>
            rw [hmt] at hm
            simp only [Except.ok.injEq] at hm
            subst hm
            simp [hrec]

theorem normalizeParams_ok_mapType (docs : List (String × String)) :
    ∀ (xs : List CallableParam) (ys : List ParameterSpec),
      normalizeParams docs xs = .ok ys →
      ∀ p ∈ xs, mapType p.type ≠ none
  | [], _, _ => by intro p hp; exact absurd hp (by simp)
  | x :: xs, ys, h => by
      intro p hp
      unfold normalizeParams at h
      cases hm : normalizeParam docs x with
      | error e => rw [hm] at h; exact absurd h (by simp)
      | ok s =>
        rw [hm] at h
        cases hr : normalizeParams docs xs with
        | error e => rw [hr] at h; exact absurd h (by simp)
        | ok rest =>
          rcases List.mem_cons.mp hp with hpx | hpxs
          · subst hpx
            intro hnone
            unfold normalizeParam at hm
            rw [hnone] at hm
            exact absurd hm (by simp)
          · exact normalizeParams_ok_mapType docs xs rest hr p hpxs

theorem normalizeFields_ok :
    ∀ (xs : List SchemaField) (ys : List ParameterSpec),
      normalizeFields xs = .ok ys →
      ys.map (fun p => (p.name, p.required)) = xs.map (fun q => (q.name, !q.hasDefault))
  | [], ys, h => by
      simp only [normalizeFields, Except.ok.injEq] at h
      subst h; rfl
  | x :: xs, ys, h => by
      unfold normalizeFields at h
      cases hm : normalizeField x with
      | error e => rw [hm] at h; exact absurd h (by simp)
      | ok s =>
        rw [hm] at h
        cases hr : normalizeFields xs with
        | error e => rw [hr] at h; exact absurd h (by simp)
        | ok rest =>
          rw [hr] at h
          simp only [Except.ok.injEq] at h
          subst h
          have hrec := normalizeFields_ok xs rest hr
          unfold normalizeField at hm
          cases hmt : mapType x.type with
          | none => rw [hmt] at hm; exact absurd hm (by simp)
          | some t =>
            rw [hmt] at hm
            simp only [Except.ok.injEq] at hm
            subst hm
            simp [hrec]

theorem normalizeFields_ok_mapType :
    ∀ (xs : List SchemaField) (ys : List ParameterSpec),
      normalizeFields xs = .ok ys →
      ∀ f ∈ xs, mapType f.type ≠ none
  | [], _, _ => by intro f hf; exact absurd hf (by simp)
  | x :: xs, ys, h => by
      intro f hf
      unfold normalizeFields at h
      cases hm : normalizeField x with
      | error e => rw [hm] at h; exact absurd h (by simp)
      | ok s =>
        rw [hm] at h
        cases hr : normalizeFields xs with
        | error e => rw [hr] at h; exact absurd h (by simp)
        | ok rest =>
          rcases List.mem_cons.mp hf with hfx | hfxs
          · subst hfx
            intro hnone
            unfold normalizeField at hm
            rw [hnone] at hm
            exact absurd hm (by simp)
          · exact normalizeFields_ok_mapType xs rest hr f hfxs

/-- A successful normalization pairs the descriptor's parameters, in order,
with the source's declared parameters: same names, and required exactly when
the source declares no default. -/
theorem normalize_params_pairs (src : Source) (d : ToolDescriptor)
    (h : normalize src = .ok d) :
    d.parameters.map (fun p => (p.name, p.required)) =
      (sourceParams src).map (fun q => (q.1, !q.2)) := by
  cases src with
  | callable s =>
    simp only [normalize, normalizeCallable] at h
    cases hp : normalizeParams s.paramDocs s.params with
    | error e => rw [hp] at h; exact absurd h (by simp)
    | ok ps =>
      rw [hp] at h
      simp only [Except.ok.injEq] at h
      subst h
      simp [sourceParams, normalizeParams_ok s.paramDocs s.params ps hp]
  | schemaObject s =>
    simp only [normalize, normalizeSchemaObject] at h
    cases hp : normalizeFields s.fields with
    | error e => rw [hp] at h; exact absurd h (by simp)
    | ok ps =>
      rw [hp] at h
      simp only [Except.ok.injEq] at h
      subst h
      simp [sourceParams, normalizeFields_ok s.fields ps hp]
  | toolWrapper t =>
    simp only [normalize, normalizeToolWrapper] at h
    cases hi : normalizeSchemaObject t.argsSchema with
    | error e => rw [hi] at h; exact absurd h (by simp)
    | ok inner =>
      rw [hi] at h
      simp only [Except.ok.injEq] at h
      subst h
      unfold normalizeSchemaObject at hi
      cases hp : normalizeFields t.argsSchema.fields with
      | error e => rw [hp] at hi; exact absurd hi (by simp)
      | ok ps =>
        rw [hp] at hi
        simp only [Except.ok.injEq] at hi
        subst hi
        simp [sourceParams, normalizeFields_ok t.argsSchema.fields ps hp]

/-- The string names in the `required` array of `toJSONSchema` are exactly the
names of the required parameters, in declaration order. -/
theorem filterMap_str_names (ps : List ParameterSpec) :
    (ps.map (fun p => Json.str p.name)).filterMap
        (fun v => match v with
          | Json.str s => some s
          | _ => none) =
      ps.map (fun p => p.name) := by
  induction ps with
  | nil => rfl
  | cons p ps ih => simp [List.filterMap_cons, ih]

/-- Reading `function.parameters.required` back out of a modern-shape
serialization yields the required parameter names, in declaration order. -/
theorem requiredNamesOf_serialize (d : ToolDescriptor) :
    requiredNamesOf (serialize d false) =
      (d.parameters.filter (fun p => p.required)).map (fun p => p.name) := by
  have : getPath (serialize d false) ["function", "parameters", "required"] =
      some (Json.arr ((d.parameters.filter (fun p => p.required)).map
        (fun p => Json.str p.name))) := rfl
  rw [requiredNamesOf, this]
  exact filterMap_str_names _

/-- A successful normalization means every declared type was mappable. -/
theorem normalize_ok_mapType (src : Source) (d : ToolDescriptor)
    (h : normalize src = .ok d) :
    ∀ t ∈ sourceTypes src, mapType t ≠ none := by
  cases src with
  | callable s =>
    simp only [normalize, normalizeCallable] at h
    cases hp : normalizeParams s.paramDocs s.params with
    | error e => rw [hp] at h; exact absurd h (by simp)
    | ok ps =>
      intro t ht
      simp only [sourceTypes, List.mem_map] at ht
      obtain ⟨p, hpmem, hpt⟩ := ht
      subst hpt
      exact normalizeParams_ok_mapType s.paramDocs s.params ps hp p hpmem
  | schemaObject s =>
    simp only [normalize, normalizeSchemaObject] at h
    cases hp : normalizeFields s.fields with
    | error e => rw [hp] at h; exact absurd h (by simp)
    | ok ps =>
      intro t ht
      simp only [sourceTypes, List.mem_map] at ht
      obtain ⟨f, hfmem, hft⟩ := ht
      subst hft
      exact normalizeFields_ok_mapType s.fields ps hp f hfmem
  | toolWrapper tw =>
    simp only [normalize, normalizeToolWrapper] at h
    cases hi : normalizeSchemaObject tw.argsSchema with
    | error e => rw [hi] at h; exact absurd h (by simp)
    | ok inner =>
      unfold normalizeSchemaObject at hi
      cases hp : normalizeFields tw.argsSchema.fields with
      | error e => rw [hp] at hi; exact absurd hi (by simp)
      | ok ps =>
        intro t ht
        simp only [sourceTypes, List.mem_map] at ht
        obtain ⟨f, hfmem, hft⟩ := ht
        subst hft
        exact normalizeFields_ok_mapType tw.argsSchema.fields ps hp f hfmem

/-! ### Concrete descriptors and a failing source -/

/-- The descriptor the normalizer produces for the notebook's Python function
`multiply`. -/
def multiplyDescriptor : ToolDescriptor :=
  { name := "multiply",
    descr := "Multiply two integers together.",
    parameters :=
      [{ name := "a", type := JsonType.integer, descr := some "First integer", required := true },
       { name := "b", type := JsonType.integer, descr := some "Second integer", required := true }] }

/-- The descriptor the normalizer produces for the notebook's `Multiply()`
tool instance. -/
def multiplyToolDescriptor : ToolDescriptor :=
  { name := "multiply",
    descr := "Multiply two integers together.",
    parameters :=
      [{ name := "a", type := JsonType.integer, descr := some "First integer", required := true },
       { name := "b", type := JsonType.integer, descr := some "Second integer", required := true }] }

/-- A callable source one of whose parameters has an unrecognized custom type
with no JSON Schema mapping. -/
def badCallable : CallableSource :=
  { name := "frobnicate",
    docSummary := "Frobnicate a widget.",
    paramDocs := [("x", "The widget")],
    params := [{ name := "x", type := SourceType.custom "Widget", hasDefault := false }] }

/-! ### Claims -/

/-- C1 (corrected), counterexample: the recorded outputs of the three
notebook variants are not byte-for-byte identical — the callable variant's
per-parameter schema lists `type` before `description` while the Pydantic
variant lists `description` before `type` — even though the property
ordering inside `properties` is the declaration order `a`, `b` in both, so
the claim's "modulo property ordering" proviso does not cover the
difference. -/
theorem variant_outputs_differ_bytewise :
    functionVariantOutput ≠ pydanticVariantOutput ∧
    keysAt functionVariantOutput ["function", "parameters", "properties"] = some ["a", "b"] ∧
    keysAt pydanticVariantOutput ["function", "parameters", "properties"] = some ["a", "b"] := by
  refine ⟨fun h => ?_, rfl, rfl⟩
  exact absurd
    (congrArg (fun j => keysAt j ["function", "parameters", "properties", "a"]) h)
    (by decide)

/-- C1 (amended): the three variants' outputs are identical as unordered JSON
data — equal after canonicalizing key order — with property ordering inside
`properties` equal to the declaration order `a`, `b`; they are not
byte-for-byte identical, differing in the key order inside each
per-parameter schema. The modelled normalize-then-serialize pipeline agrees
with each recorded output up to the same canonicalization. -/
theorem variant_outputs_equivalent_mod_key_order :
    canonJson 8 functionVariantOutput = canonJson 8 pydanticVariantOutput ∧
    canonJson 8 functionVariantOutput = canonJson 8 toolVariantOutput ∧
    keysAt functionVariantOutput ["function", "parameters", "properties"] = some ["a", "b"] ∧
    keysAt pydanticVariantOutput ["function", "parameters", "properties"] = some ["a", "b"] ∧
    keysAt toolVariantOutput ["function", "parameters", "properties"] = some ["a", "b"] ∧
    (normalize (Source.callable multiplyCallable)).map (fun d => canonJson 8 (serialize d false)) =
      Except.ok (canonJson 8 functionVariantOutput) ∧
    (normalize (Source.schemaObject multiplyPydantic)).map (fun d => canonJson 8 (serialize d false)) =
      Except.ok (canonJson 8 pydanticVariantOutput) ∧
    (normalize (Source.toolWrapper multiplyTool)).map (fun d => canonJson 8 (serialize d false)) =
      Except.ok (canonJson 8 toolVariantOutput) :=
  ⟨rfl, rfl, rfl, rfl, rfl, rfl, rfl, rfl⟩

/-- C2: the legacy flat shape is exactly the unwrapped modern payload — for
every descriptor, `serialize(d, legacy=true)` equals the value of the
`function` field of `serialize(d, legacy=false)`; and the notebook's recorded
legacy output is exactly the `function` field of its recorded modern
output. -/
theorem legacy_is_unwrapped_modern :
    (∀ d : ToolDescriptor, getField (serialize d false) "function" = some (serialize d true)) ∧
    getField pydanticVariantOutput "function" = some legacyFunctionOutput :=
  ⟨fun _ => rfl, rfl⟩

/-- C3: end-to-end, for the notebook's callable `multiply` (two required
integer parameters with per-parameter docs, docstring summary "Multiply two
integers together."), `serialize(normalize(multiply), legacy=false)` is
exactly the claimed JSON object. -/
theorem end_to_end_multiply :
    (normalize (Source.callable multiplyCallable)).map (fun d => serialize d false) =
      Except.ok (Json.obj
        [("type", Json.str "function"),
         ("function", Json.obj
           [("name", Json.str "multiply"),
            ("description", Json.str "Multiply two integers together."),
            ("parameters", Json.obj
              [("type", Json.str "object"),
               ("properties", Json.obj
                 [("a", Json.obj
                    [("type", Json.str "integer"),
                     ("description", Json.str "First integer")]),
                  ("b", Json.obj
                    [("type", Json.str "integer"),
                     ("description", Json.str "Second integer")])]),
               ("required", Json.arr [Json.str "a", Json.str "b"])])])]) := rfl

/-- C4: for every source whose declared parameter names are distinct and every
declared parameter, the parameter's name appears in the serialized
`parameters.required` list iff the parameter was declared without a default
value. -/
theorem required_iff_no_default (src : Source) (d : ToolDescriptor)
    (h : normalize src = Except.ok d)
    (hnodup : ((sourceParams src).map Prod.fst).Nodup)
    (n : String) (hd : Bool)
    (hmem : (n, hd) ∈ sourceParams src) :
    n ∈ requiredNamesOf (serialize d false) ↔ hd = false := by
  rw [requiredNamesOf_serialize]
  have hpairs := normalize_params_pairs src d h
  constructor
  · intro hn
    rcases List.mem_map.mp hn with ⟨p, hpmem, hpname⟩
    rcases List.mem_filter.mp hpmem with ⟨hpmem', hpreq⟩
    have hpair : (p.name, p.required) ∈ (sourceParams src).map (fun q => (q.1, !q.2)) := by
      rw [← hpairs]
      exact List.mem_map_of_mem _ hpmem'
    rcases List.mem_map.mp hpair with ⟨q, hqmem, hqeq⟩
    have hq1 : q.1 = n := by
      have := congrArg Prod.fst hqeq
      simpa [hpname] using this
    have hq2 : (!q.2) = p.required := congrArg Prod.snd hqeq
    have hqe : q = (n, hd) :=
      List.inj_on_of_nodup_map hnodup hqmem hmem (by simpa using hq1)
    have : (!hd) = true := by
      rw [← hpreq, ← hq2, hqe]
    simpa using this
  · intro hdf
    subst hdf
    have hpair : ((n, false).1, !(n, false).2) ∈ (sourceParams src).map (fun q => (q.1, !q.2)) :=
      List.mem_map_of_mem _ hmem
    rw [← hpairs] at hpair
    rcases List.mem_map.mp hpair with ⟨p, hpmem, hpeq⟩
    have hpname : p.name = n := by
      have := congrArg Prod.fst hpeq
      simpa using this
    have hpreq : p.required = true := by
      have := congrArg Prod.snd hpeq
      simpa using this
    exact List.mem_map.mpr ⟨p, List.mem_filter.mpr ⟨hpmem, hpreq⟩, hpname⟩

/-- Witness for C4: the parameter `a` of the notebook's callable `multiply`
has no default, and its name is listed in the serialized required list. -/
theorem required_iff_no_default_witness :
    ("a" ∈ requiredNamesOf (serialize multiplyDescriptor false)) ↔ (false = false) :=
  required_iff_no_default (Source.callable multiplyCallable) multiplyDescriptor rfl
    (by decide) "a" false (by decide)

/-- C5: a source with a parameter whose declared type has no JSON Schema
mapping makes `normalize` fail synchronously with a `SchemaMappingError`; as
the result is an error of the one failure kind, no (partial) descriptor is
produced and no silent fallback happens. -/
theorem unmappable_type_fails (src : Source)
    (h : ∃ t ∈ sourceTypes src, mapType t = none) :
    ∃ n, normalize src = Except.error (NormalizeError.schemaMappingError n) := by
  cases hres : normalize src with
  | ok d =>
    obtain ⟨t, htmem, htnone⟩ := h
    exact absurd htnone (normalize_ok_mapType src d hres t htmem)
  | error e =>
    cases e with
    | schemaMappingError n => exact ⟨n, rfl⟩

/-- Witness for C5: a callable with one parameter of the unrecognized custom
type `Widget` fails with a `SchemaMappingError`. -/
theorem unmappable_type_fails_witness :
    ∃ n, normalize (Source.callable badCallable) =
      Except.error (NormalizeError.schemaMappingError n) :=
  unmappable_type_fails (Source.callable badCallable) (by decide)

/-- C6: for every tool-wrapper source, a successful normalization uses the
instance's explicit name and description verbatim, and its parameters equal
exactly those the schema-object variant produces for the referenced class. -/
theorem tool_wrapper_verbatim (t : ToolWrapperSource) (d : ToolDescriptor)
    (h : normalize (Source.toolWrapper t) = Except.ok d) :
    d.name = t.name ∧ d.descr = t.descr ∧
    ∃ inner, normalize (Source.schemaObject t.argsSchema) = Except.ok inner ∧
      inner.parameters = d.parameters := by
  simp only [normalize, normalizeToolWrapper] at h
  cases hi : normalizeSchemaObject t.argsSchema with
  | error e => rw [hi] at h; exact absurd h (by simp)
  | ok inner =>
    rw [hi] at h
    simp only [Except.ok.injEq] at h
    subst h
    exact ⟨rfl, rfl, inner, by simp [normalize, hi], rfl⟩

/-- Witness for C6: the notebook's `Multiply()` tool instance keeps its own
name "multiply" and description, not the referenced class's identifier
"MultiplySchema" or docstring. -/
theorem tool_wrapper_verbatim_witness :
    multiplyToolDescriptor.name = multiplyTool.name ∧
    multiplyToolDescriptor.descr = multiplyTool.descr ∧
    ∃ inner, normalize (Source.schemaObject multiplyTool.argsSchema) = Except.ok inner ∧
      inner.parameters = multiplyToolDescriptor.parameters :=
  tool_wrapper_verbatim multiplyTool multiplyToolDescriptor rfl

/-- C7: `toJSONSchema` always emits `{type: "object", properties, required}`
with the keys of `properties` equal to the parameter names in declaration
order; with no parameters, `properties` is an empty object and `required` an
empty list. -/
theorem toJSONSchema_shape :
    (∀ ps : List ParameterSpec, ∃ props req,
      toJSONSchema ps = Json.obj
        [("type", Json.str "object"),
         ("properties", Json.obj props),
         ("required", Json.arr req)] ∧
      props.map Prod.fst = ps.map (fun p => p.name)) ∧
    toJSONSchema [] = Json.obj
      [("type", Json.str "object"),
       ("properties", Json.obj []),
       ("required", Json.arr [])] := by
  refine ⟨fun ps => ⟨_, _, rfl, ?_⟩, rfl⟩
  simp

/-- C8: the recorded outputs of the Pydantic-class variant and the
tool-wrapper variant are byte-for-byte identical, each per-parameter schema
listing `description` before `type`, while the callable variant's recorded
output lists `type` before `description`. -/
theorem pydantic_and_tool_outputs_byte_identical :
    pydanticVariantOutput = toolVariantOutput ∧
    keysAt functionVariantOutput ["function", "parameters", "properties", "a"] =
      some ["type", "description"] ∧
    keysAt functionVariantOutput ["function", "parameters", "properties", "b"] =
      some ["type", "description"] ∧
    keysAt pydanticVariantOutput ["function", "parameters", "properties", "a"] =
      some ["description", "type"] ∧
    keysAt pydanticVariantOutput ["function", "parameters", "properties", "b"] =
      some ["description", "type"] ∧
    keysAt toolVariantOutput ["function", "parameters", "properties", "a"] =
      some ["description", "type"] ∧
    keysAt toolVariantOutput ["function", "parameters", "properties", "b"] =
      some ["description", "type"] :=
  ⟨rfl, rfl, rfl, rfl, rfl, rfl, rfl⟩

/-- C9: serialization is a pure, stateless transform — a call returns the
output and leaves the descriptor unchanged, and serializing the descriptor it
leaves behind again, with the same legacy flag, yields identical output. -/
theorem serialize_pure_idempotent (d : ToolDescriptor) (legacy : Bool) :
    (serializeWith d legacy).2 = d ∧
    (serializeWith (serializeWith d legacy).2 legacy).1 = (serializeWith d legacy).1 :=
  ⟨rfl, rfl⟩

/-- C10: the modern-shape output always has exactly the two top-level keys
`type` and `function`, `type` is always the string "function", and the name,
description and parameters all live under `function`; likewise in all three
recorded notebook outputs. -/
theorem modern_shape_invariant :
    (∀ d : ToolDescriptor,
      objKeys (serialize d false) = ["type", "function"] ∧
      getField (serialize d false) "type" = some (Json.str "function") ∧
      getField (serialize d false) "function" = some (Json.obj
        [("name", Json.str d.name),
         ("description", Json.str d.descr),
         ("parameters", toJSONSchema d.parameters)])) ∧
    objKeys functionVariantOutput = ["type", "function"] ∧
    objKeys pydanticVariantOutput = ["type", "function"] ∧
    objKeys toolVariantOutput = ["type", "function"] ∧
    getField functionVariantOutput "type" = some (Json.str "function") ∧
    getField pydanticVariantOutput "type" = some (Json.str "function") ∧
    getField toolVariantOutput "type" = some (Json.str "function") :=
  ⟨fun _ => ⟨rfl, rfl, rfl⟩, rfl, rfl, rfl, rfl, rfl, rfl⟩

end FnCall
